import Mathlib

/-!
Verification of the prompt-construction core of the 4-panel manga generator
backend: the input models (`models.py`) and the prompt compiler
(`prompt_builder.py`, `build_manga_prompt`).

The Python dictionaries are embedded as insertion-ordered association lists,
matching CPython dict semantics (insertion order preserved; assignment to an
existing key updates the value in place).  The YAML value tree built by
`build_manga_prompt` is embedded as the inductive `YValue`; `yaml.dump` with
`sort_keys=False` is modelled by the deterministic, order-preserving
serializer `yamlDump`.
-/

namespace Manga

/-- One digit chunk of a Python integer literal: digits with single
underscores allowed only between digits (`int("1_0") = 10`,
`int("1__0")` and `int("1_")` fail).  Returns the digit characters. -/
def udigits : List Char → Option (List Char)
  | [] => none
  | [c] => if c.isDigit then some [c] else none
  | c :: '_' :: rest2 =>
    if c.isDigit then (udigits rest2).map (fun ds => c :: ds) else none
  | c :: c2 :: rest2 =>
    if c.isDigit then (udigits (c2 :: rest2)).map (fun ds => c :: ds) else none

/-- Decimal value of a list of digit characters. -/
def digitsToNat (l : List Char) : Nat :=
  l.foldl (fun a c => a * 10 + (c.toNat - 48)) 0

/-- Model of Python `int(s)` on a string: strip surrounding whitespace,
optional sign, then a non-empty digit sequence (ASCII digits, single
underscores between digits).  `none` models the `ValueError` that
`int()` raises on a non-parsing string. -/
def pythonInt (s : String) : Option Int :=
  let l := ((s.toList.dropWhile Char.isWhitespace).reverse.dropWhile
      Char.isWhitespace).reverse
  match l with
  | '+' :: rest => (udigits rest).map (fun ds => Int.ofNat (digitsToNat ds))
  | '-' :: rest => (udigits rest).map (fun ds => -(Int.ofNat (digitsToNat ds)))
  | _ => (udigits l).map (fun ds => Int.ofNat (digitsToNat ds))

/-- CPython dict assignment `d[k] = v` on an insertion-ordered association
list: if `k` is already present its value is updated in place (keeping the
original position), otherwise the pair is appended. -/
def pyDictSet {α : Type} (d : List (String × α)) (k : String) (v : α) :
    List (String × α) :=
  if d.any (fun p => p.1 == k) then
    d.map (fun p => if p.1 == k then (k, v) else p)
  else
    d ++ [(k, v)]

/-- Lookup in an insertion-ordered association list (first match). -/
def pyLookup {α : Type} (d : List (String × α)) (k : String) : Option α :=
  (d.find? (fun p => p.1 == k)).map Prod.snd

/-- `models.py` `CharacterInput`: name, reference image identifier, optional
description.  (The pydantic length bounds are structural validation on the
boundary and are not needed by the prompt compiler.) -/
structure CharacterInput where
  name : String
  ref_image : String
  description : Option String
  deriving Repr, DecidableEq

/-- `models.py` `SceneInput`: scene description, per-character states keyed
by character-index-as-string (an insertion-ordered dict), and a background
string that may be empty. -/
structure SceneInput where
  scene_description : String
  character_states : List (String × String)
  objects_background : String
  deriving Repr, DecidableEq

/-- The `ValueError`s `build_manga_prompt` can raise: the explicit scene
count check, and the error `int(char_idx_str)` raises when a
`character_states` key does not parse as an integer. -/
inductive MangaError where
  | sceneCount (actual : Nat)
  | intParse (key : String)
  deriving Repr, DecidableEq

/-- Message text of each `ValueError`
(`f"Expected exactly 4 scenes, got {len(scenes)}"` for the count check;
Python renders the `int()` failure as an invalid-literal message). -/
def MangaError.message : MangaError → String
  | .sceneCount n => "Expected exactly 4 scenes, got " ++ toString n
  | .intParse k => "invalid literal for int() with base 10: " ++ k

/-- Structured YAML-like value tree: scalars, lists, insertion-ordered maps. -/
inductive YValue where
  | s (v : String)
  | b (v : Bool)
  | n (v : Int)
  | arr (items : List YValue)
  | map (entries : List (String × YValue))

/-- Lookup of a key in a `YValue` that is a map. -/
def yMapLookup (v : YValue) (k : String) : Option YValue :=
  match v with
  | .map d => pyLookup d k
  | _ => none

/-- Default character used to make the guarded in-range list access total
(the guard guarantees it is never returned). -/
def defaultChar : CharacterInput := ⟨"", "", none⟩

/-- Character name resolution of `prompt_builder.py` (lines 97-101): if the
parsed index is in `[0, len(characters))` use `characters[char_idx].name`,
else the synthetic `f"Character_{char_idx + 1}"`. -/
def resolveCharName (characters : List CharacterInput) (char_idx : Int) :
    String :=
  if 0 ≤ char_idx ∧ char_idx < (characters.length : Int) then
    (characters.getD char_idx.toNat defaultChar).name
  else
    "Character_" ++ toString (char_idx + 1)

/-- The loop over `scene.character_states.items()` (lines 96-103): each key
is passed to `int()` (failure propagates as a `ValueError`), resolved to a
name, and assigned into the panel's `characters` dict. -/
def buildPanelChars (characters : List CharacterInput)
    (acc : List (String × String)) :
    List (String × String) → Except MangaError (List (String × String))
  | [] => .ok acc
  | (k, st) :: rest =>
    match pythonInt k with
    | none => .error (.intParse k)
    | some i =>
      buildPanelChars characters
        (pyDictSet acc (resolveCharName characters i) st) rest

/-- The unconditional head of each `panel_data` dict (lines 89-92): the
1-based panel number and the scene description. -/
def panelBase (idx : Nat) (scene : SceneInput) : List (String × YValue) :=
  [("panel_number", YValue.n idx),
   ("scene_description", YValue.s scene.scene_description)]

/-- The `background_and_objects` entry is appended only when the background
string is non-empty (Python truthiness, lines 105-106). -/
def withBackground (scene : SceneInput) (wc : List (String × YValue)) :
    List (String × YValue) :=
  if scene.objects_background == "" then wc
  else wc ++ [("background_and_objects", YValue.s scene.objects_background)]

/-- One entry of the panels loop (lines 88-108): panel number and scene
description always; a `characters` sub-map if `character_states` is
non-empty (its construction propagates the `int()` failure);
`background_and_objects` if the background string is non-empty. -/
def buildPanel (characters : List CharacterInput) (idx : Nat)
    (scene : SceneInput) : Except MangaError YValue :=
  if scene.character_states.isEmpty then
    .ok (YValue.map (withBackground scene (panelBase idx scene)))
  else
    match buildPanelChars characters [] scene.character_states with
    | .error e => .error e
    | .ok cm =>
      .ok (YValue.map (withBackground scene
        (panelBase idx scene ++
         [("characters", YValue.map (cm.map (fun p => (p.1, YValue.s p.2))))])))

/-- `for idx, scene in enumerate(scenes, 1)`: builds the panels list,
propagating the first `ValueError`. -/
def buildPanels (characters : List CharacterInput) :
    Nat → List SceneInput → Except MangaError (List YValue)
  | _, [] => .ok []
  | idx, scene :: rest =>
    match buildPanel characters idx scene with
    | .error e => .error e
    | .ok p =>
      match buildPanels characters (idx + 1) rest with
      | .error e => .error e
      | .ok ps => .ok (p :: ps)

/-- One entry of `character_references["characters"]` (lines 62-70):
1-based display id, name, the constant `reference_image_provided: True`
flag, and the description only when it is present and non-empty (Python
truthiness of `char.description`). -/
def charEntry (idx : Nat) (char : CharacterInput) : YValue :=
  let base : List (String × YValue) :=
    [("id", YValue.n idx), ("name", YValue.s char.name),
     ("reference_image_provided", YValue.b true)]
  YValue.map
    (match char.description with
     | some d => if d == "" then base else base ++ [("description", YValue.s d)]
     | none => base)

/-- `for idx, char in enumerate(characters, 1)` starting at display id `j`. -/
def charEntriesFrom : Nat → List CharacterInput → List YValue
  | _, [] => []
  | j, ch :: rest => charEntry j ch :: charEntriesFrom (j + 1) rest

/-- The `character_references` block (lines 58-70): count plus one entry per
character in input order, display ids starting at 1. -/
def charRefsBlock (characters : List CharacterInput) : YValue :=
  YValue.map
    [("count", YValue.n characters.length),
     ("characters", YValue.arr (charEntriesFrom 1 characters))]

/-- The constant `CRITICAL_PRIORITY` block inserted when a layout reference
is provided (lines 37-53). -/
def criticalPriorityBlock : YValue :=
  YValue.map
    [("highest_priority", YValue.s "layout_reference_compliance"),
     ("requirement",
      YValue.s "MUST follow layout reference with ABSOLUTE PRECISION"),
     ("mandatory_elements", YValue.arr
       [YValue.s "Panel arrangement must match reference exactly",
        YValue.s "Panel sizes must match reference exactly",
        YValue.s "Panel positions must match reference exactly",
        YValue.s "Panel borders/frames must match reference exactly",
        YValue.s "Spacing between panels must match reference exactly",
        YValue.s "Overall composition must be visually identical to reference"]),
     ("constraint", YValue.s "Do NOT deviate from layout reference in ANY way"),
     ("note", YValue.s "All other instructions are secondary to layout compliance"),
     ("CRITICAL_NOTE",
      YValue.s "The aspect ratio specification (3:4) defines the CANVAS dimensions ONLY. It does NOT define the panel layout within the canvas. The layout reference image defines the panel arrangement. Simply fit the layout reference into a 3:4 canvas.")]

/-- The `instruction` string used when a layout reference is provided
(line 54). -/
def layoutInstruction : String :=
  "Generate 4-panel manga following specifications below while maintaining EXACT adherence to layout reference. The 3:4 aspect ratio is for the OVERALL CANVAS only - the panel layout must match the reference image exactly."

/-- The free-layout `instruction` string (line 56). -/
def freeLayoutInstruction : String :=
  "Generate 4-panel manga based on specifications below with free choice of panel layout"

/-- The constant `layout_reference` block (lines 73-86). -/
def layoutReferenceBlock : YValue :=
  YValue.map
    [("provided", YValue.b true),
     ("requirements", YValue.map
       [("panel_positions",
         YValue.s "Copy exact X/Y coordinates of each panel relative to the reference"),
        ("panel_dimensions",
         YValue.s "Match width and height proportions precisely"),
        ("panel_borders", YValue.s "Replicate thickness and style exactly"),
        ("spacing", YValue.s "Maintain exact gaps between panels"),
        ("composition",
         YValue.s "Final image must be visually identical in layout"),
        ("non_negotiable",
         YValue.s "Layout reference is the blueprint - follow exactly"),
        ("aspect_ratio_clarification",
         YValue.s "The 3:4 aspect ratio is for the CANVAS (overall output image). The layout reference shows the INTERNAL panel arrangement. Simply reproduce the layout reference panel arrangement within a 3:4 portrait canvas.")])]

/-- Priority 1 of `output_requirements.priority_order` (layout branch). -/
def prioLayoutCompliance : YValue :=
  YValue.map
    [("priority", YValue.n 1),
     ("name", YValue.s "layout_compliance"),
     ("description", YValue.s "Follow layout reference image EXACTLY"),
     ("details", YValue.arr
       [YValue.s "Panel positions, sizes, borders, spacing must match precisely",
        YValue.s "Layout structure is more important than any other aspect"])]

/-- Priority 2 of `output_requirements.priority_order` (layout branch). -/
def prioCharacterConsistency : YValue :=
  YValue.map
    [("priority", YValue.n 2),
     ("name", YValue.s "character_consistency"),
     ("description",
      YValue.s "Maintain character appearance across panels using provided reference images")]

/-- Priority 3 of `output_requirements.priority_order` (layout branch). -/
def prioSceneContent : YValue :=
  YValue.map
    [("priority", YValue.n 3),
     ("name", YValue.s "scene_content"),
     ("description",
      YValue.s "Show scene, characters, and background described in each panel")]

/-- Priority 4 of `output_requirements.priority_order` (layout branch). -/
def prioTextAndSymbols : YValue :=
  YValue.map
    [("priority", YValue.n 4),
     ("name", YValue.s "text_and_symbols"),
     ("rules", YValue.map
       [("speech_bubbles", YValue.s "COMPLETELY EMPTY (no dialogue text)"),
        ("text_forbidden",
         YValue.s "Do NOT write letters, words, text, sound effects (like \x27ドン\x27)"),
        ("symbols_allowed",
         YValue.s "Manga symbols ARE allowed (♪, !, ?, sweat drops, effect lines, emotion marks)"),
        ("text_inclusion",
         YValue.s "Only include text explicitly specified in panel descriptions"),
        ("layout_priority",
         YValue.s "While keeping bubbles empty, maintain exact layout from reference")])]

/-- The art style and coloring requirement map, shared verbatim between the
two branches of the source (lines 146-168 and 183-201). -/
def artStyleRequirements : YValue :=
  YValue.map
    [("color_mode", YValue.s "COLOR ILLUSTRATION (NOT black and white)"),
     ("coloring_technique",
      YValue.s "Flat colors with even, beautiful coloring throughout"),
     ("character_emphasis", YValue.map
       [("main_characters", YValue.map
         [("colors", YValue.s "bold, vibrant colors"),
          ("linework", YValue.s "thicker lines")]),
        ("objects_and_background", YValue.map
         [("colors", YValue.s "subdued, muted colors"),
          ("linework", YValue.s "thinner, lighter lines")])]),
     ("background_handling", YValue.map
       [("when_specified", YValue.s "Color appropriately with muted tones"),
        ("when_not_specified",
         YValue.s "Interpret context and add appropriate colors or abstract background")]),
     ("style", YValue.s "manga/comic art style with professional flat coloring")]

/-- Priority 5 of `output_requirements.priority_order` (layout branch). -/
def prioArtStyle : YValue :=
  YValue.map
    [("priority", YValue.n 5),
     ("name", YValue.s "art_style_and_coloring"),
     ("requirements", artStyleRequirements)]

/-- The `no_layout_reference` requirement groups (lines 172-202): the same
concerns as priorities 2-5 but as an unranked map. -/
def noLayoutRequirements : YValue :=
  YValue.map
    [("character_consistency",
      YValue.s "Maintain appearance across panels using provided reference images"),
     ("scene_content",
      YValue.s "Show scene, characters, and background as described"),
     ("text_rules", YValue.map
       [("forbidden", YValue.s "No letters, words, dialogue, or sound effect text"),
        ("speech_bubbles", YValue.s "Draw but keep completely empty"),
        ("allowed",
         YValue.s "Manga symbols (♪, !, ?, sweat, emotion marks, effect lines)"),
        ("inclusion",
         YValue.s "Only include text explicitly mentioned in panel specifications")]),
     ("art_style_and_coloring", artStyleRequirements)]

/-- The `output_requirements` value (lines 111-204): the dict starts as
`{"priority_order": []}`; the layout branch reassigns `priority_order` to
the five ranked priorities, the free-layout branch leaves the empty list in
place and adds the `no_layout_reference` key. -/
def outputRequirements (has_layout_ref : Bool) : YValue :=
  if has_layout_ref then
    YValue.map
      [("priority_order", YValue.arr
        [prioLayoutCompliance, prioCharacterConsistency, prioSceneContent,
         prioTextAndSymbols, prioArtStyle])]
  else
    YValue.map
      [("priority_order", YValue.arr []),
       ("no_layout_reference", noLayoutRequirements)]

/-- The full `prompt_data` dict in source insertion order: `task`,
`output_format`, then `CRITICAL_PRIORITY` (layout branch only),
`instruction`, `character_references` (only if `characters` is non-empty),
`layout_reference` (layout branch only), `panels`, `output_requirements`. -/
def docSkeleton (characters : List CharacterInput) (has_layout_ref : Bool)
    (panels : List YValue) : List (String × YValue) :=
  [("task", YValue.s "4-panel manga generation"),
   ("output_format", YValue.s "single image containing all 4 panels")] ++
  (if has_layout_ref then
    [("CRITICAL_PRIORITY", criticalPriorityBlock),
     ("instruction", YValue.s layoutInstruction)]
   else [("instruction", YValue.s freeLayoutInstruction)]) ++
  (if characters.isEmpty then []
   else [("character_references", charRefsBlock characters)]) ++
  (if has_layout_ref then [("layout_reference", layoutReferenceBlock)]
   else []) ++
  [("panels", YValue.arr panels),
   ("output_requirements", outputRequirements has_layout_ref)]

/-- `build_manga_prompt` up to serialization: the scene-count guard
(lines 26-27) then the construction of `prompt_data`. -/
def buildMangaDoc (characters : List CharacterInput)
    (scenes : List SceneInput) (has_layout_ref : Bool) :
    Except MangaError (List (String × YValue)) :=
  if scenes.length ≠ 4 then .error (.sceneCount scenes.length)
  else (buildPanels characters 1 scenes).map (docSkeleton characters has_layout_ref)

/-- Rendering of a scalar `YValue` the way PyYAML renders it (booleans
lowercase, integers in decimal); `none` for containers. -/
def yScalar : YValue → Option String
  | .s v => some v
  | .b true => some "true"
  | .b false => some "false"
  | .n i => some (toString i)
  | _ => none

/-- Two spaces of indentation per nesting level. -/
def yIndent (n : Nat) : String := String.join (List.replicate n "  ")

mutual

/-- Line-by-line block-style serialization of a `YValue`, modelling
`yaml.dump(..., allow_unicode=True, default_flow_style=False,
sort_keys=False)`: deterministic, insertion-order-preserving, keys and
scalars emitted literally.  (PyYAML details that no stated property depends
on — scalar quoting rules and line wrapping — are abstracted away.) -/
def yamlLines (ind : Nat) : YValue → List String
  | .s v => [yIndent ind ++ v]
  | .b v => [yIndent ind ++ (if v then "true" else "false")]
  | .n v => [yIndent ind ++ toString v]
  | .map entries => yamlMapLines ind entries
  | .arr items => yamlArrLines ind items

/-- Serialization of the entries of a block-style map, in order. -/
def yamlMapLines (ind : Nat) : List (String × YValue) → List String
  | [] => []
  | (k, v) :: rest =>
    (match yScalar v with
     | some sc => [yIndent ind ++ k ++ ": " ++ sc]
     | none =>
       match v with
       | .arr [] => [yIndent ind ++ k ++ ": []"]
       | .map [] => [yIndent ind ++ k ++ ": \x7b\x7d"]
       | _ => (yIndent ind ++ k ++ ":") :: yamlLines (ind + 1) v) ++
    yamlMapLines ind rest

/-- Serialization of the items of a block-style sequence, in order, each
item introduced by a `- ` marker. -/
def yamlArrLines (ind : Nat) : List YValue → List String
  | [] => []
  | v :: rest =>
    (match yamlLines (ind + 1) v with
     | [] => []
     | first :: more =>
       (yIndent ind ++ "- " ++ first.drop (2 * (ind + 1))) :: more) ++
    yamlArrLines ind rest

end

/-- Serialized document: the lines joined with newlines, with a trailing
newline as emitted by `yaml.dump`. -/
def yamlDump (entries : List (String × YValue)) : String :=
  String.intercalate "\x0A" (yamlMapLines 0 entries) ++ "\x0A"

/-- `build_manga_prompt(characters, scenes, has_layout_ref)` of
`prompt_builder.py`: the scene-count guard, the construction of the
insertion-ordered `prompt_data` document, and its serialization.  `.error`
models a raised `ValueError`. -/
def build_manga_prompt (characters : List CharacterInput)
    (scenes : List SceneInput) (has_layout_ref : Bool) :
    Except MangaError String :=
  (buildMangaDoc characters scenes has_layout_ref).map yamlDump

/-- `models.py` `ImageGenerationRequest` (the aspect ratio field is the
fixed `Literal["3:4"]`). -/
structure ImageGenerationRequest where
  aspect_ratio : String
  layout_ref_image : Option String
  characters : List CharacterInput
  scenes : List SceneInput
  deriving Repr, DecidableEq

/-- Pydantic validation failures relevant to request construction: the list
length constraints of `Field(min_items=4, max_items=4)` (pydantic v2 maps
the deprecated `min_items`/`max_items` to `min_length`/`max_length`) and a
`ValueError` raised inside a custom field validator. -/
inductive ValidationError where
  | tooShort (minLen actual : Nat)
  | tooLong (maxLen actual : Nat)
  | valueError (msg : String)
  deriving Repr, DecidableEq

/-- Pydantic v2 error message text for each failure kind
(`too_short`: "List should have at least {m} items after validation, not
{n}"; `too_long` analogously; custom validators are prefixed with
"Value error, "). -/
def ValidationError.message : ValidationError → String
  | .tooShort m a =>
    "List should have at least " ++ toString m ++
      " items after validation, not " ++ toString a
  | .tooLong m a =>
    "List should have at most " ++ toString m ++
      " items after validation, not " ++ toString a
  | .valueError msg => "Value error, " ++ msg

/-- The `validate_scenes_count` field validator of `ImageGenerationRequest`
(`models.py` lines 32-38). -/
def validate_scenes_count (v : List SceneInput) :
    Except ValidationError (List SceneInput) :=
  if v.length ≠ 4 then .error (.valueError "Exactly 4 scenes must be provided")
  else .ok v

/-- Construction of an `ImageGenerationRequest`: pydantic first enforces the
`min_items=4, max_items=4` length constraints on `scenes`, then runs the
`validate_scenes_count` field validator; only if everything passes is the
value produced. -/
def mkImageGenerationRequest (layout_ref_image : Option String)
    (characters : List CharacterInput) (scenes : List SceneInput) :
    Except ValidationError ImageGenerationRequest :=
  if scenes.length < 4 then .error (.tooShort 4 scenes.length)
  else if 4 < scenes.length then .error (.tooLong 4 scenes.length)
  else
    match validate_scenes_count scenes with
    | .error e => .error e
    | .ok v => .ok ⟨"3:4", layout_ref_image, characters, v⟩

/-- Concrete scene with description "A" and no optional content. -/
def sceneA : SceneInput := ⟨"A", [], ""⟩

/-- Concrete scene with description "B" and no optional content. -/
def sceneB : SceneInput := ⟨"B", [], ""⟩

/-- Concrete scene with description "C" and no optional content. -/
def sceneC : SceneInput := ⟨"C", [], ""⟩

/-- Concrete scene with description "D" and no optional content. -/
def sceneD : SceneInput := ⟨"D", [], ""⟩

/-- The four-scene input with descriptions A, B, C, D. -/
def scenesABCD : List SceneInput := [sceneA, sceneB, sceneC, sceneD]

/-- A scene whose `character_states` key does not parse as an integer. -/
def sceneBadKey : SceneInput := ⟨"M", [("x", "s")], ""⟩

/-- A scene whose `character_states` maps index string "0" to "smiling". -/
def sceneSmile : SceneInput := ⟨"Park", [("0", "smiling")], ""⟩

/-- Concrete character Alice. -/
def alice : CharacterInput := ⟨"Alice", "alice.png", some "A cheerful girl"⟩

/-- Concrete character Bob. -/
def bob : CharacterInput := ⟨"Bob", "bob.png", some "A serious boy"⟩

/-- Two distinct characters sharing the same display name. -/
def xavier1 : CharacterInput := ⟨"X", "x1.png", none⟩

/-- Two distinct characters sharing the same display name. -/
def xavier2 : CharacterInput := ⟨"X", "x2.png", none⟩

/-- Every error of the character-states loop is an `int()` parse failure. -/
theorem buildPanelChars_error_shape (c : List CharacterInput) :
    ∀ (st acc : List (String × String)) (e : MangaError),
      buildPanelChars c acc st = .error e → ∃ k, e = .intParse k := by
  intro st
  induction st with
  | nil => intro acc e h; simp [buildPanelChars] at h
  | cons p rest ih =>
    intro acc e h
    obtain ⟨k, sv⟩ := p
    cases hp : pythonInt k with
    | none =>
      simp only [buildPanelChars, hp, Except.error.injEq] at h
      exact ⟨k, h.symm⟩
    | some i =>
      simp only [buildPanelChars, hp] at h
      exact ih _ e h

/-- The character-states loop succeeds when every key parses. -/
theorem buildPanelChars_ok_total (c : List CharacterInput) :
    ∀ (st acc : List (String × String)),
      (∀ p ∈ st, (pythonInt p.1).isSome) →
      ∃ cm, buildPanelChars c acc st = .ok cm := by
  intro st
  induction st with
  | nil => intro acc _; exact ⟨acc, rfl⟩
  | cons p rest ih =>
    intro acc hk
    obtain ⟨k, sv⟩ := p
    have hks : (pythonInt k).isSome := hk (k, sv) (List.mem_cons_self _ _)
    cases hp : pythonInt k with
    | none => rw [hp] at hks; simp at hks
    | some i =>
      obtain ⟨cm, hcm⟩ :=
        ih (pyDictSet acc (resolveCharName c i) sv)
          (fun q hq => hk q (List.mem_cons_of_mem _ hq))
      exact ⟨cm, by simp only [buildPanelChars, hp]; exact hcm⟩

/-- `withBackground` only appends entries after the given prefix. -/
theorem withBackground_shape (scene : SceneInput)
    (wc : List (String × YValue)) :
    ∃ tl, withBackground scene wc = wc ++ tl := by
  unfold withBackground
  by_cases hb : scene.objects_background == ""
  · exact ⟨[], by simp [hb]⟩
  · exact ⟨[("background_and_objects", YValue.s scene.objects_background)],
      by simp [hb]⟩

/-- Every error of `buildPanel` is an `int()` parse failure. -/
theorem buildPanel_error_shape (c : List CharacterInput) (idx : Nat)
    (scene : SceneInput) (e : MangaError)
    (h : buildPanel c idx scene = .error e) : ∃ k, e = .intParse k := by
  cases he : scene.character_states.isEmpty with
  | true => simp [buildPanel, he] at h
  | false =>
    cases hbc : buildPanelChars c [] scene.character_states with
    | error e' =>
      obtain ⟨k, hk⟩ := buildPanelChars_error_shape c _ _ _ hbc
      simp only [buildPanel, he, Bool.false_eq_true, if_false, hbc,
        Except.error.injEq] at h
      exact ⟨k, h ▸ hk⟩
    | ok cm => simp [buildPanel, he, hbc] at h

/-- `buildPanel` succeeds when every character-states key parses. -/
theorem buildPanel_ok_total (c : List CharacterInput) (idx : Nat)
    (scene : SceneInput)
    (hk : ∀ p ∈ scene.character_states, (pythonInt p.1).isSome) :
    ∃ v, buildPanel c idx scene = .ok v := by
  cases he : scene.character_states.isEmpty with
  | true =>
    exact ⟨YValue.map (withBackground scene (panelBase idx scene)),
      by simp [buildPanel, he]⟩
  | false =>
    obtain ⟨cm, hcm⟩ := buildPanelChars_ok_total c scene.character_states [] hk
    exact ⟨YValue.map (withBackground scene (panelBase idx scene ++
        [("characters", YValue.map (cm.map (fun p => (p.1, YValue.s p.2))))])),
      by simp [buildPanel, he, hcm]⟩

/-- A successful panel starts with its panel number and scene description. -/
theorem buildPanel_ok_shape (c : List CharacterInput) (idx : Nat)
    (scene : SceneInput) (v : YValue)
    (h : buildPanel c idx scene = .ok v) :
    ∃ tl, v = .map (("panel_number", YValue.n idx) ::
      ("scene_description", YValue.s scene.scene_description) :: tl) := by
  cases he : scene.character_states.isEmpty with
  | true =>
    obtain ⟨tl2, htl⟩ := withBackground_shape scene (panelBase idx scene)
    simp only [buildPanel, he, if_true, Except.ok.injEq] at h
    exact ⟨tl2, by rw [← h, htl]; rfl⟩
  | false =>
    cases hbc : buildPanelChars c [] scene.character_states with
    | error e' => simp [buildPanel, he, hbc] at h
    | ok cm =>
      obtain ⟨tl2, htl⟩ := withBackground_shape scene (panelBase idx scene ++
        [("characters", YValue.map (cm.map (fun p => (p.1, YValue.s p.2))))])
      simp only [buildPanel, he, Bool.false_eq_true, if_false, hbc,
        Except.ok.injEq] at h
      refine ⟨("characters",
        YValue.map (cm.map (fun p => (p.1, YValue.s p.2)))) :: tl2, ?_⟩
      rw [← h, htl]
      simp [panelBase]

/-- Every error of the panels loop is an `int()` parse failure. -/
theorem buildPanels_error_shape (c : List CharacterInput) :
    ∀ (s : List SceneInput) (j : Nat) (e : MangaError),
      buildPanels c j s = .error e → ∃ k, e = .intParse k := by
  intro s
  induction s with
  | nil => intro j e h; simp [buildPanels] at h
  | cons scene rest ih =>
    intro j e h
    cases hp : buildPanel c j scene with
    | error e' =>
      simp only [buildPanels, hp, Except.error.injEq] at h
      obtain ⟨k, hk⟩ := buildPanel_error_shape c j scene e' hp
      exact ⟨k, h ▸ hk⟩
    | ok p =>
      cases hps : buildPanels c (j + 1) rest with
      | error e' =>
        simp only [buildPanels, hp, hps, Except.error.injEq] at h
        obtain ⟨k, hk⟩ := ih (j + 1) e' hps
        exact ⟨k, h ▸ hk⟩
      | ok ps => simp [buildPanels, hp, hps] at h

/-- The panels loop succeeds when every key of every scene parses. -/
theorem buildPanels_ok_total (c : List CharacterInput) :
    ∀ (s : List SceneInput) (j : Nat),
      (∀ scene ∈ s, ∀ p ∈ scene.character_states, (pythonInt p.1).isSome) →
      ∃ ps, buildPanels c j s = .ok ps := by
  intro s
  induction s with
  | nil => intro j _; exact ⟨[], rfl⟩
  | cons scene rest ih =>
    intro j hk
    obtain ⟨v, hv⟩ :=
      buildPanel_ok_total c j scene (hk scene (List.mem_cons_self _ _))
    obtain ⟨ps, hps⟩ :=
      ih (j + 1) (fun sc hsc => hk sc (List.mem_cons_of_mem _ hsc))
    exact ⟨v :: ps, by simp [buildPanels, hv, hps]⟩

/-- A successful panels loop yields one panel per scene. -/
theorem buildPanels_length (c : List CharacterInput) :
    ∀ (s : List SceneInput) (j : Nat) (ps : List YValue),
      buildPanels c j s = .ok ps → ps.length = s.length := by
  intro s
  induction s with
  | nil => intro j ps h; simp only [buildPanels, Except.ok.injEq] at h; simp [← h]
  | cons scene rest ih =>
    intro j ps h
    cases hp : buildPanel c j scene with
    | error e' => simp [buildPanels, hp] at h
    | ok p =>
      cases hps : buildPanels c (j + 1) rest with
      | error e' => simp [buildPanels, hp, hps] at h
      | ok ps' =>
        simp only [buildPanels, hp, hps, Except.ok.injEq] at h
        simp [← h, ih (j + 1) ps' hps]

/-- The `i`-th panel of a successful panels loop carries panel number
`j + i` and the `i`-th scene's description, in input order. -/
theorem buildPanels_get (c : List CharacterInput) :
    ∀ (s : List SceneInput) (j : Nat) (ps : List YValue),
      buildPanels c j s = .ok ps →
      ∀ (i : Nat) (scene : SceneInput), s.get? i = some scene →
      ∃ tl, ps.get? i = some (.map (("panel_number", YValue.n (j + i)) ::
        ("scene_description", YValue.s scene.scene_description) :: tl)) := by
  intro s
  induction s with
  | nil => intro j ps h i scene hi; simp at hi
  | cons scene0 rest ih =>
    intro j ps h i scene hi
    cases hp : buildPanel c j scene0 with
    | error e' => simp [buildPanels, hp] at h
    | ok p =>
      cases hps : buildPanels c (j + 1) rest with
      | error e' => simp [buildPanels, hp, hps] at h
      | ok ps' =>
        simp only [buildPanels, hp, hps, Except.ok.injEq] at h
        cases i with
        | zero =>
          simp only [List.get?] at hi
          obtain rfl : scene0 = scene := by injection hi
          obtain ⟨tl, htl⟩ := buildPanel_ok_shape c j scene0 p hp
          exact ⟨tl, by simp [← h, htl]⟩
        | succ i' =>
          simp only [List.get?] at hi
          obtain ⟨tl, htl⟩ := ih (j + 1) ps' hps i' scene hi
          refine ⟨tl, ?_⟩
          rw [← h]
          have hcast : ((j + 1 : Nat) : Int) + (i' : Int) =
              (j : Int) + ((i' + 1 : Nat) : Int) := by push_cast; ring
          rw [hcast] at htl
          simpa using htl

/-- Inversion of a successful `buildMangaDoc`: the scenes count is 4 and the
document is the skeleton over a successful panels loop. -/
theorem buildMangaDoc_ok_inv (c : List CharacterInput) (s : List SceneInput)
    (b : Bool) (d : List (String × YValue))
    (hd : buildMangaDoc c s b = .ok d) :
    s.length = 4 ∧
      ∃ ps, buildPanels c 1 s = .ok ps ∧ d = docSkeleton c b ps := by
  unfold buildMangaDoc at hd
  by_cases h4 : s.length ≠ 4
  · simp [h4] at hd
  · rw [if_neg h4] at hd
    cases hps : buildPanels c 1 s with
    | error e => rw [hps] at hd; simp [Except.map] at hd
    | ok ps =>
      rw [hps] at hd
      simp only [Except.map, Except.ok.injEq] at hd
      exact ⟨by omega, ps, rfl, hd.symm⟩

/-- C1: whenever the scenes list does not have exactly 4 elements,
`build_manga_prompt` fails with a `ValueError` whose message names both the
expected count (4) and the actual count; when the scenes list has exactly 4
elements the scene-count check never fails. -/
theorem build_prompt_scene_count_check (c : List CharacterInput)
    (s : List SceneInput) (b : Bool) :
    (s.length ≠ 4 →
      build_manga_prompt c s b = .error (.sceneCount s.length) ∧
      ∃ u v : String,
        (MangaError.sceneCount s.length).message =
          u ++ "4" ++ v ++ toString s.length) ∧
    (s.length = 4 →
      ∀ n, build_manga_prompt c s b ≠ .error (.sceneCount n)) := by
  constructor
  · intro h4
    refine ⟨?_, "Expected exactly ", " scenes, got ", rfl⟩
    simp [build_manga_prompt, buildMangaDoc, h4, Except.map]
  · intro h4 n hcontra
    unfold build_manga_prompt buildMangaDoc at hcontra
    rw [if_neg (by omega)] at hcontra
    cases hps : buildPanels c 1 s with
    | error e =>
      rw [hps] at hcontra
      obtain ⟨k, hk⟩ := buildPanels_error_shape c s 1 e hps
      simp [Except.map, hk] at hcontra
    | ok ps => rw [hps] at hcontra; simp [Except.map] at hcontra

/-- Witness for C1 at a concrete 1-scene input. -/
theorem build_prompt_scene_count_check_witness :
    build_manga_prompt [] [sceneA] false = .error (.sceneCount 1) ∧
    (MangaError.sceneCount 1).message = "Expected exactly 4 scenes, got 1" :=
  ⟨((build_prompt_scene_count_check [] [sceneA] false).1 (by decide)).1, rfl⟩

/-- C2: `build_manga_prompt` is deterministic — equal valid inputs give
byte-identical output strings (the document is an insertion-ordered
association structure throughout, and the serializer preserves that
order). -/
theorem build_prompt_deterministic (c₁ c₂ : List CharacterInput)
    (s₁ s₂ : List SceneInput) (b₁ b₂ : Bool) (h4 : s₁.length = 4)
    (hc : c₁ = c₂) (hs : s₁ = s₂) (hb : b₁ = b₂) :
    build_manga_prompt c₁ s₁ b₁ = build_manga_prompt c₂ s₂ b₂ := by
  subst hc; subst hs; subst hb; rfl

/-- Witness for C2 at a concrete valid input. -/
theorem build_prompt_deterministic_witness :
    build_manga_prompt [alice] scenesABCD true =
      build_manga_prompt [alice] scenesABCD true :=
  build_prompt_deterministic [alice] [alice] scenesABCD scenesABCD true true
    (by decide) rfl rfl rfl

/-- C3 counterexample: on a 4-scene input whose `character_states` key "x"
does not parse as an integer, `build_manga_prompt` raises the `ValueError`
of `int("x")` instead of returning a string, so the scene-count
precondition is not the only failure mode. -/
theorem build_prompt_nonint_key_raises :
    build_manga_prompt [] [sceneBadKey, sceneA, sceneA, sceneA] false =
      .error (.intParse "x") ∧
    (MangaError.intParse "x").message =
      "invalid literal for int() with base 10: x" :=
  ⟨rfl, rfl⟩

/-- C3 (amended): `build_manga_prompt` is total on every input whose scenes
list has exactly 4 elements and whose `character_states` keys all parse as
integers — out-of-range indices, empty character lists, empty descriptions
and empty backgrounds included; a key that does not parse as an integer
additionally raises the `ValueError` of `int()`. -/
theorem build_prompt_total_on_int_keys (c : List CharacterInput)
    (s : List SceneInput) (b : Bool) (h4 : s.length = 4)
    (hk : ∀ scene ∈ s, ∀ p ∈ scene.character_states,
      (pythonInt p.1).isSome) :
    ∃ out, build_manga_prompt c s b = .ok out := by
  obtain ⟨ps, hps⟩ := buildPanels_ok_total c s 1 hk
  refine ⟨yamlDump (docSkeleton c b ps), ?_⟩
  unfold build_manga_prompt buildMangaDoc
  rw [if_neg (by omega), hps]
  rfl

/-- Witness for the amended C3: empty character list, an out-of-range
index, empty backgrounds. -/
theorem build_prompt_total_on_int_keys_witness :
    ∃ out, build_manga_prompt [] [sceneSmile, sceneA, sceneA, sceneA] false =
      .ok out :=
  build_prompt_total_on_int_keys [] [sceneSmile, sceneA, sceneA, sceneA]
    false (by decide) (by decide)

/-- C4: a panel's character sub-map keys on `characters[index].name` when
the parsed index is in range and on the synthetic `Character_{index+1}`
otherwise. -/
theorem panel_char_index_resolution (c : List CharacterInput)
    (k st desc : String) (i : Int) (hk : pythonInt k = some i) :
    buildPanel c 1 ⟨desc, [(k, st)], ""⟩ =
      .ok (YValue.map
        [("panel_number", YValue.n 1),
         ("scene_description", YValue.s desc),
         ("characters", YValue.map
           [(if 0 ≤ i ∧ i < (c.length : Int) then
               (c.getD i.toNat defaultChar).name
             else "Character_" ++ toString (i + 1), YValue.s st)])]) := by
  simp only [buildPanel, buildPanelChars, hk]
  rfl

/-- Witness for C4: `characters = []` with `characterStates = {"0":
"smiling"}` keys the panel's character section on `Character_1`. -/
theorem panel_char_index_resolution_witness :
    buildPanel [] 1 ⟨"Park", [("0", "smiling")], ""⟩ =
      .ok (YValue.map
        [("panel_number", YValue.n 1),
         ("scene_description", YValue.s "Park"),
         ("characters", YValue.map [("Character_1", YValue.s "smiling")])]) :=
  panel_char_index_resolution [] "0" "smiling" "Park" 0 rfl

/-- C8: constructing an `ImageGenerationRequest` with a scenes sequence
whose length is not 4 fails with a cardinality validation error whose
message names the expected count (4) and the actual count, and no request
value is produced. -/
theorem request_scene_cardinality (layout : Option String)
    (chars : List CharacterInput) (scenes : List SceneInput)
    (h : scenes.length ≠ 4) :
    ∃ e, mkImageGenerationRequest layout chars scenes = .error e ∧
      (e = .tooShort 4 scenes.length ∨ e = .tooLong 4 scenes.length) ∧
      (∃ u v : String,
        e.message = u ++ "4" ++ v ++ toString scenes.length) ∧
      ∀ r, mkImageGenerationRequest layout chars scenes ≠ .ok r := by
  rcases Nat.lt_or_ge scenes.length 4 with hlt | hge
  · refine ⟨.tooShort 4 scenes.length, ?_, .inl rfl,
      ⟨"List should have at least ", " items after validation, not ", rfl⟩,
      ?_⟩
    · simp [mkImageGenerationRequest, hlt]
    · intro r hr
      rw [mkImageGenerationRequest, if_pos hlt] at hr
      exact Except.noConfusion hr
  · have hgt : 4 < scenes.length := lt_of_le_of_ne hge (fun hh => h hh.symm)
    refine ⟨.tooLong 4 scenes.length, ?_, .inr rfl,
      ⟨"List should have at most ", " items after validation, not ", rfl⟩,
      ?_⟩
    · simp [mkImageGenerationRequest, hgt, Nat.not_lt.mpr hge]
    · intro r hr
      rw [mkImageGenerationRequest, if_neg (Nat.not_lt.mpr hge),
        if_pos hgt] at hr
      exact Except.noConfusion hr

/-- Witness for C8 at the empty scenes sequence. -/
theorem request_scene_cardinality_witness :
    ∃ e, mkImageGenerationRequest none [] [] = .error e ∧
      (e = .tooShort 4 0 ∨ e = .tooLong 4 0) ∧
      (∃ u v : String, e.message = u ++ "4" ++ v ++ toString (0 : Nat)) ∧
      ∀ r, mkImageGenerationRequest none [] [] ≠ .ok r :=
  request_scene_cardinality none [] [] (by decide)

/-- C10: two `character_states` entries whose keys resolve to the same
character name collapse into a single sub-map entry holding the later
state; the sub-map is strictly smaller than `character_states` and states
are never merged. -/
theorem duplicate_name_overwrite (c : List CharacterInput)
    (k₁ k₂ st₁ st₂ : String) (i₁ i₂ : Int)
    (h₁ : pythonInt k₁ = some i₁) (h₂ : pythonInt k₂ = some i₂)
    (hne : k₁ ≠ k₂) (hsame : resolveCharName c i₁ = resolveCharName c i₂) :
    buildPanelChars c [] [(k₁, st₁), (k₂, st₂)] =
      .ok [(resolveCharName c i₂, st₂)] ∧
    ([(resolveCharName c i₂, st₂)] : List (String × String)).length <
      ([(k₁, st₁), (k₂, st₂)] : List (String × String)).length := by
  refine ⟨?_, by simp⟩
  simp only [buildPanelChars, h₁, h₂, pyDictSet]
  rw [hsame]
  simp

/-- Witness for C10: two characters named "X"; entries for indices 0 and 1
collapse to the single entry `X -> b`. -/
theorem duplicate_name_overwrite_witness :
    buildPanelChars [xavier1, xavier2] [] [("0", "a"), ("1", "b")] =
      .ok [("X", "b")] ∧
    ([("X", "b")] : List (String × String)).length <
      ([("0", "a"), ("1", "b")] : List (String × String)).length :=
  duplicate_name_overwrite [xavier1, xavier2] "0" "1" "a" "b" 0 1 rfl rfl
    (by decide) rfl

/-- The panels value produced for the A, B, C, D scenes (no character
states, no backgrounds). -/
def panelsABCD : List YValue :=
  [YValue.map [("panel_number", YValue.n 1), ("scene_description", YValue.s "A")],
   YValue.map [("panel_number", YValue.n 2), ("scene_description", YValue.s "B")],
   YValue.map [("panel_number", YValue.n 3), ("scene_description", YValue.s "C")],
   YValue.map [("panel_number", YValue.n 4), ("scene_description", YValue.s "D")]]

/-- The display-id loop of the character references block, index-shifted. -/
theorem charEntriesFrom_get :
    ∀ (c : List CharacterInput) (j i : Nat),
      (charEntriesFrom j c).get? i = (c.get? i).map (fun ch => charEntry (j + i) ch) := by
  intro c
  induction c with
  | nil => intro j i; simp [charEntriesFrom]
  | cons ch rest ih =>
    intro j i
    cases i with
    | zero => simp [charEntriesFrom]
    | succ i' =>
      simp only [charEntriesFrom, List.get?, ih (j + 1) i']
      have : j + 1 + i' = j + (i' + 1) := by omega
      rw [this]

/-- Every character entry carries its display id, the character's name and
the constant `reference_image_provided: True` flag at those keys. -/
theorem charEntry_fields (j : Nat) (ch : CharacterInput) :
    yMapLookup (charEntry j ch) "id" = some (YValue.n j) ∧
    yMapLookup (charEntry j ch) "name" = some (YValue.s ch.name) ∧
    yMapLookup (charEntry j ch) "reference_image_provided" =
      some (YValue.b true) := by
  cases hde : ch.description with
  | none => simp [charEntry, hde, yMapLookup, pyLookup, List.find?]
  | some dd =>
    cases hdd : dd == "" with
    | true => simp [charEntry, hde, hdd, yMapLookup, pyLookup, List.find?]
    | false => simp [charEntry, hde, hdd, yMapLookup, pyLookup, List.find?]

/-- C5: the output document contains the `CRITICAL_PRIORITY` block and the
`layout_reference` block if and only if `has_layout_ref` is true, in which
case `output_requirements` carries the five ranked priorities in fixed
order (layout compliance, character consistency, scene content,
text/symbol rules, art style and coloring); it contains the free-layout
instruction if and only if `has_layout_ref` is false, in which case the
same concerns appear as the unranked `no_layout_reference` groups. -/
theorem layout_branching (c : List CharacterInput) (s : List SceneInput)
    (b : Bool) (d : List (String × YValue))
    (hd : buildMangaDoc c s b = .ok d) :
    (pyLookup d "CRITICAL_PRIORITY" = some criticalPriorityBlock ↔ b = true) ∧
    (pyLookup d "layout_reference" = some layoutReferenceBlock ↔ b = true) ∧
    (pyLookup d "instruction" = some (YValue.s freeLayoutInstruction) ↔
      b = false) ∧
    (b = true → pyLookup d "output_requirements" = some (YValue.map
      [("priority_order", YValue.arr
        [prioLayoutCompliance, prioCharacterConsistency, prioSceneContent,
         prioTextAndSymbols, prioArtStyle])])) ∧
    (b = false → pyLookup d "output_requirements" = some (YValue.map
      [("priority_order", YValue.arr []),
       ("no_layout_reference", noLayoutRequirements)])) ∧
    yMapLookup prioLayoutCompliance "name" =
      some (YValue.s "layout_compliance") ∧
    yMapLookup prioLayoutCompliance "priority" = some (YValue.n 1) ∧
    yMapLookup prioCharacterConsistency "name" =
      some (YValue.s "character_consistency") ∧
    yMapLookup prioCharacterConsistency "priority" = some (YValue.n 2) ∧
    yMapLookup prioSceneContent "name" = some (YValue.s "scene_content") ∧
    yMapLookup prioSceneContent "priority" = some (YValue.n 3) ∧
    yMapLookup prioTextAndSymbols "name" =
      some (YValue.s "text_and_symbols") ∧
    yMapLookup prioTextAndSymbols "priority" = some (YValue.n 4) ∧
    yMapLookup prioArtStyle "name" =
      some (YValue.s "art_style_and_coloring") ∧
    yMapLookup prioArtStyle "priority" = some (YValue.n 5) := by
  obtain ⟨h4, ps, hps, rfl⟩ := buildMangaDoc_ok_inv c s b d hd
  refine ⟨?_, ?_, ?_, ?_, ?_, rfl, rfl, rfl, rfl, rfl, rfl, rfl, rfl, rfl, rfl⟩ <;>
    cases b <;> cases hc : c.isEmpty <;>
      simp [docSkeleton, hc, pyLookup, List.find?, outputRequirements,
        layoutInstruction, freeLayoutInstruction]

/-- Witness for C5 at a concrete layout-branch input. -/
theorem layout_branching_witness :
    (pyLookup (docSkeleton [alice] true panelsABCD) "CRITICAL_PRIORITY" =
        some criticalPriorityBlock ↔ true = true) ∧
    (pyLookup (docSkeleton [alice] true panelsABCD) "layout_reference" =
        some layoutReferenceBlock ↔ true = true) ∧
    (pyLookup (docSkeleton [alice] true panelsABCD) "instruction" =
        some (YValue.s freeLayoutInstruction) ↔ true = false) ∧
    (true = true → pyLookup (docSkeleton [alice] true panelsABCD)
      "output_requirements" = some (YValue.map
      [("priority_order", YValue.arr
        [prioLayoutCompliance, prioCharacterConsistency, prioSceneContent,
         prioTextAndSymbols, prioArtStyle])])) ∧
    (true = false → pyLookup (docSkeleton [alice] true panelsABCD)
      "output_requirements" = some (YValue.map
      [("priority_order", YValue.arr []),
       ("no_layout_reference", noLayoutRequirements)])) ∧
    yMapLookup prioLayoutCompliance "name" =
      some (YValue.s "layout_compliance") ∧
    yMapLookup prioLayoutCompliance "priority" = some (YValue.n 1) ∧
    yMapLookup prioCharacterConsistency "name" =
      some (YValue.s "character_consistency") ∧
    yMapLookup prioCharacterConsistency "priority" = some (YValue.n 2) ∧
    yMapLookup prioSceneContent "name" = some (YValue.s "scene_content") ∧
    yMapLookup prioSceneContent "priority" = some (YValue.n 3) ∧
    yMapLookup prioTextAndSymbols "name" =
      some (YValue.s "text_and_symbols") ∧
    yMapLookup prioTextAndSymbols "priority" = some (YValue.n 4) ∧
    yMapLookup prioArtStyle "name" =
      some (YValue.s "art_style_and_coloring") ∧
    yMapLookup prioArtStyle "priority" = some (YValue.n 5) :=
  layout_branching [alice] scenesABCD true
    (docSkeleton [alice] true panelsABCD) rfl

/-- C6: the output document contains a `character_references` section if
and only if the characters list is non-empty; when present its count is
exactly `len(characters)` and its entries follow input order with 1-based
display ids carrying each character's name. -/
theorem character_section_presence (c : List CharacterInput)
    (s : List SceneInput) (b : Bool) (d : List (String × YValue))
    (hd : buildMangaDoc c s b = .ok d) :
    (pyLookup d "character_references" = none ↔ c.isEmpty = true) ∧
    (c.isEmpty = false →
      pyLookup d "character_references" = some (YValue.map
        [("count", YValue.n c.length),
         ("characters", YValue.arr (charEntriesFrom 1 c))])) ∧
    (∀ i ch, c.get? i = some ch →
      (charEntriesFrom 1 c).get? i = some (charEntry (i + 1) ch) ∧
      yMapLookup (charEntry (i + 1) ch) "id" = some (YValue.n (i + 1)) ∧
      yMapLookup (charEntry (i + 1) ch) "name" = some (YValue.s ch.name)) := by
  obtain ⟨h4, ps, hps, rfl⟩ := buildMangaDoc_ok_inv c s b d hd
  refine ⟨?_, ?_, ?_⟩
  · cases b <;> cases hc : c.isEmpty <;>
      simp [docSkeleton, hc, pyLookup, List.find?, charRefsBlock]
  · intro hc
    cases b <;>
      simp [docSkeleton, hc, pyLookup, List.find?, charRefsBlock]
  · intro i ch hi
    have hget := charEntriesFrom_get c 1 i
    rw [hi] at hget
    have harith : 1 + i = i + 1 := by omega
    rw [harith] at hget
    obtain ⟨hid, hname, _⟩ := charEntry_fields (i + 1) ch
    exact ⟨by simpa using hget, hid, hname⟩

/-- Witness for C6 with two characters. -/
theorem character_section_presence_witness :
    (pyLookup (docSkeleton [alice, bob] false panelsABCD)
        "character_references" = none ↔
      ([alice, bob] : List CharacterInput).isEmpty = true) ∧
    (([alice, bob] : List CharacterInput).isEmpty = false →
      pyLookup (docSkeleton [alice, bob] false panelsABCD)
          "character_references" = some (YValue.map
        [("count", YValue.n ([alice, bob] : List CharacterInput).length),
         ("characters", YValue.arr (charEntriesFrom 1 [alice, bob]))])) ∧
    (∀ i ch, ([alice, bob] : List CharacterInput).get? i = some ch →
      (charEntriesFrom 1 [alice, bob]).get? i = some (charEntry (i + 1) ch) ∧
      yMapLookup (charEntry (i + 1) ch) "id" = some (YValue.n (i + 1)) ∧
      yMapLookup (charEntry (i + 1) ch) "name" = some (YValue.s ch.name)) :=
  character_section_presence [alice, bob] scenesABCD false
    (docSkeleton [alice, bob] false panelsABCD) rfl

/-- C7: the output's panels block has exactly 4 entries, one per scene in
input order, numbered 1 through 4, each carrying its scene's description. -/
theorem panel_ordering (c : List CharacterInput) (s : List SceneInput)
    (b : Bool) (d : List (String × YValue))
    (hd : buildMangaDoc c s b = .ok d) :
    ∃ panels, pyLookup d "panels" = some (YValue.arr panels) ∧
      panels.length = 4 ∧
      ∀ i scene, s.get? i = some scene → ∃ tl,
        panels.get? i = some (.map
          (("panel_number", YValue.n (i + 1)) ::
           ("scene_description", YValue.s scene.scene_description) :: tl)) := by
  obtain ⟨h4, ps, hps, rfl⟩ := buildMangaDoc_ok_inv c s b d hd
  refine ⟨ps, ?_, ?_, ?_⟩
  · cases b <;> cases hc : c.isEmpty <;>
      simp [docSkeleton, hc, pyLookup, List.find?]
  · rw [buildPanels_length c s 1 ps hps, h4]
  · intro i scene hi
    obtain ⟨tl, htl⟩ := buildPanels_get c s 1 ps hps i scene hi
    refine ⟨tl, ?_⟩
    have hcast : ((1 : Nat) : Int) + (i : Int) = (i : Int) + 1 := by
      push_cast; ring
    rw [hcast] at htl
    exact htl

/-- Witness for C7 on the A, B, C, D scenes. -/
theorem panel_ordering_witness :
    ∃ panels,
      pyLookup (docSkeleton [] false panelsABCD) "panels" =
        some (YValue.arr panels) ∧
      panels.length = 4 ∧
      ∀ i scene, scenesABCD.get? i = some scene → ∃ tl,
        panels.get? i = some (.map
          (("panel_number", YValue.n (i + 1)) ::
           ("scene_description", YValue.s scene.scene_description) :: tl)) :=
  panel_ordering [] scenesABCD false (docSkeleton [] false panelsABCD) rfl

/-- Name projection at an index is determined by the list of names. -/
theorem getD_name_congr (c₁ c₂ : List CharacterInput)
    (hnames : c₁.map CharacterInput.name = c₂.map CharacterInput.name)
    (n : Nat) :
    (c₁.getD n defaultChar).name = (c₂.getD n defaultChar).name := by
  have h := congrArg (fun l => l.get? n) hnames
  simp only [List.get?_map] at h
  cases h₁ : c₁.get? n with
  | none =>
    cases h₂ : c₂.get? n with
    | none =>
      rw [List.get?_eq_getElem?] at h₁ h₂
      simp [List.getD, h₁, h₂]
    | some y => rw [h₁, h₂] at h; simp at h
  | some x =>
    cases h₂ : c₂.get? n with
    | none => rw [h₁, h₂] at h; simp at h
    | some y =>
      rw [h₁, h₂] at h
      simp only [Option.map_some', Option.some.injEq] at h
      rw [List.get?_eq_getElem?] at h₁ h₂
      simp [List.getD, h₁, h₂, h]

/-- Character-name resolution only reads lengths and names. -/
theorem resolveCharName_congr (c₁ c₂ : List CharacterInput)
    (hlen : c₁.length = c₂.length)
    (hnames : c₁.map CharacterInput.name = c₂.map CharacterInput.name)
    (i : Int) : resolveCharName c₁ i = resolveCharName c₂ i := by
  unfold resolveCharName
  rw [hlen]
  by_cases h : 0 ≤ i ∧ i < (c₂.length : Int)
  · rw [if_pos h, if_pos h, getD_name_congr c₁ c₂ hnames]
  · rw [if_neg h, if_neg h]

/-- The character-states loop only reads lengths and names. -/
theorem buildPanelChars_congr (c₁ c₂ : List CharacterInput)
    (hlen : c₁.length = c₂.length)
    (hnames : c₁.map CharacterInput.name = c₂.map CharacterInput.name) :
    ∀ (st acc : List (String × String)),
      buildPanelChars c₁ acc st = buildPanelChars c₂ acc st := by
  intro st
  induction st with
  | nil => intro acc; rfl
  | cons p rest ih =>
    intro acc
    obtain ⟨k, sv⟩ := p
    cases hp : pythonInt k with
    | none => simp [buildPanelChars, hp]
    | some i =>
      simp only [buildPanelChars, hp]
      rw [resolveCharName_congr c₁ c₂ hlen hnames i]
      exact ih _

/-- The panels loop only reads lengths and names of the characters. -/
theorem buildPanels_congr (c₁ c₂ : List CharacterInput)
    (hlen : c₁.length = c₂.length)
    (hnames : c₁.map CharacterInput.name = c₂.map CharacterInput.name) :
    ∀ (s : List SceneInput) (j : Nat),
      buildPanels c₁ j s = buildPanels c₂ j s := by
  intro s
  induction s with
  | nil => intro j; rfl
  | cons scene rest ih =>
    intro j
    have hp : buildPanel c₁ j scene = buildPanel c₂ j scene := by
      unfold buildPanel
      rw [buildPanelChars_congr c₁ c₂ hlen hnames scene.character_states []]
    simp only [buildPanels, hp, ih (j + 1)]

/-- A character entry only reads the name and the description. -/
theorem charEntry_congr (j : Nat) (a b : CharacterInput)
    (hn : a.name = b.name) (hd : a.description = b.description) :
    charEntry j a = charEntry j b := by
  unfold charEntry
  rw [hn, hd]

/-- The character-references entries only read names and descriptions. -/
theorem charEntriesFrom_congr :
    ∀ (c₁ c₂ : List CharacterInput),
      c₁.map CharacterInput.name = c₂.map CharacterInput.name →
      c₁.map CharacterInput.description = c₂.map CharacterInput.description →
      ∀ j, charEntriesFrom j c₁ = charEntriesFrom j c₂ := by
  intro c₁
  induction c₁ with
  | nil =>
    intro c₂ hn _ j
    obtain rfl : c₂ = [] := by
      cases c₂ with
      | nil => rfl
      | cons b t => simp at hn
    rfl
  | cons a t₁ ih =>
    intro c₂ hn hd j
    cases c₂ with
    | nil => simp at hn
    | cons b t₂ =>
      simp only [List.map_cons, List.cons.injEq] at hn hd
      simp only [charEntriesFrom, charEntry_congr j a b hn.1 hd.1,
        ih t₂ hn.2 hd.2 (j + 1)]

/-- The whole document skeleton only reads lengths, names, descriptions. -/
theorem docSkeleton_congr (c₁ c₂ : List CharacterInput)
    (hlen : c₁.length = c₂.length)
    (hnames : c₁.map CharacterInput.name = c₂.map CharacterInput.name)
    (hdescs : c₁.map CharacterInput.description =
      c₂.map CharacterInput.description)
    (b : Bool) (ps : List YValue) :
    docSkeleton c₁ b ps = docSkeleton c₂ b ps := by
  have hie : c₁.isEmpty = c₂.isEmpty := by
    cases c₁ <;> cases c₂ <;> simp_all
  have hcr : charRefsBlock c₁ = charRefsBlock c₂ := by
    unfold charRefsBlock
    rw [hlen, charEntriesFrom_congr c₁ c₂ hnames hdescs 1]
  unfold docSkeleton
  rw [hie, hcr]

/-- C9: the prompt is independent of every character's `ref_image` field —
character lists equal in names and descriptions give identical prompt
strings for any scenes and flag, and each character entry only asserts the
constant `reference_image_provided: True` flag. -/
theorem prompt_independent_of_ref_image (c₁ c₂ : List CharacterInput)
    (s : List SceneInput) (b : Bool)
    (hnames : c₁.map CharacterInput.name = c₂.map CharacterInput.name)
    (hdescs : c₁.map CharacterInput.description =
      c₂.map CharacterInput.description) :
    build_manga_prompt c₁ s b = build_manga_prompt c₂ s b ∧
    ∀ (j : Nat) (ch : CharacterInput),
      yMapLookup (charEntry j ch) "reference_image_provided" =
        some (YValue.b true) := by
  have hlen : c₁.length = c₂.length := by
    have h := congrArg List.length hnames
    simpa using h
  refine ⟨?_, fun j ch => (charEntry_fields j ch).2.2⟩
  unfold build_manga_prompt buildMangaDoc
  by_cases h4 : s.length ≠ 4
  · rw [if_pos h4, if_pos h4]
  · have hfun : docSkeleton c₁ b = docSkeleton c₂ b :=
      funext (docSkeleton_congr c₁ c₂ hlen hnames hdescs b)
    rw [if_neg h4, if_neg h4, buildPanels_congr c₁ c₂ hlen hnames s 1, hfun]

/-- Witness for C9: two Alices differing only in the reference image
produce the same prompt. -/
theorem prompt_independent_of_ref_image_witness :
    build_manga_prompt [⟨"Alice", "a1.png", some "A cheerful girl"⟩]
        scenesABCD false =
      build_manga_prompt [⟨"Alice", "a2.png", some "A cheerful girl"⟩]
        scenesABCD false ∧
    ∀ (j : Nat) (ch : CharacterInput),
      yMapLookup (charEntry j ch) "reference_image_provided" =
        some (YValue.b true) :=
  prompt_independent_of_ref_image
    [⟨"Alice", "a1.png", some "A cheerful girl"⟩]
    [⟨"Alice", "a2.png", some "A cheerful girl"⟩] scenesABCD false rfl rfl

end Manga
